import Mathlib

/-
Verification of the result-set loading core of dbr (`select_load.go`):
`SelectBuilder.LoadAll`, `SelectBuilder.LoadOne`, `SelectBuilder.LoadValue`.

The Go code is reflection-driven, so the embedding carries a small universe of Go
kinds, types and values, mirrors the source's validation checks and control flow
literally, and models the collaborators the source calls but whose code is not part
of this file's repository slice (Interpolate, runner.Query, calculateFieldMap,
holderFor, EventErr/EventErrKv, the event sink) from the specification's contracts.
-/

namespace Dbr

/-- Reflection kinds, mirroring the `reflect.Kind` values that `select_load.go`
inspects (`reflect.Ptr`, `reflect.Map`, `reflect.Slice`, `reflect.Struct`, plus
scalar kinds for completeness). -/
inductive Kind where
  | intK
  | stringK
  | structK
  | ptrK
  | sliceK
  | mapK
deriving DecidableEq

/-- Field description carried by a struct type: the exported field identifier and
its optional annotation tag (the `db:"..."` tag read by the reflection mapper). -/
structure FieldSpec where
  name : String
  tag : Option String
deriving DecidableEq

/-- Go types relevant to the loaders' reflection checks. Slices and maps record
their element type, as `reflect.Type.Elem` exposes it. -/
inductive GoType where
  | intT
  | stringT
  | structT (specs : List FieldSpec)
  | ptrT (elemT : GoType)
  | sliceT (elemT : GoType)
  | mapT (keyT elemT : GoType)
deriving DecidableEq

/-- Go values relevant to the loaders: scalars, structs (each field carries its
spec and current value), non-nil pointers, slices and maps (each remembering its
element type). -/
inductive GoValue where
  | intV (n : Int)
  | stringV (s : String)
  | structV (fields : List (FieldSpec × GoValue))
  | ptrV (pointee : GoValue)
  | sliceV (elemT : GoType) (elems : List GoValue)
  | mapV (keyT elemT : GoType) (entries : List (GoValue × GoValue))

/-- The `reflect.Kind` of a value. -/
def kindOf : GoValue → Kind
  | .intV _ => .intK
  | .stringV _ => .stringK
  | .structV _ => .structK
  | .ptrV _ => .ptrK
  | .sliceV _ _ => .sliceK
  | .mapV _ _ _ => .mapK

/-- The kind of a type (`reflect.Type.Kind`). -/
def GoType.kind : GoType → Kind
  | .intT => .intK
  | .stringT => .stringK
  | .structT _ => .structK
  | .ptrT _ => .ptrK
  | .sliceT _ => .sliceK
  | .mapT _ _ => .mapK

/-- The element type of a container type (`reflect.Type.Elem`). On the code paths
modelled here it is only applied to pointer, slice and map types; other types
return themselves (the source never reaches that case). -/
def GoType.elem : GoType → GoType
  | .ptrT t => t
  | .sliceT t => t
  | .mapT _ t => t
  | t => t

/-- The field specs of a struct type, empty for non-structs (the source only asks
after having checked the kind is `reflect.Struct`). -/
def GoType.structSpecs : GoType → List FieldSpec
  | .structT specs => specs
  | _ => []

/-- The `reflect.Type` of a value (pointer types are derived from the pointee, as
no nil pointers are modelled). -/
def GoValue.typeOf : GoValue → GoType
  | .intV _ => .intT
  | .stringV _ => .stringT
  | .structV fields => .structT (fields.map Prod.fst)
  | .ptrV v => .ptrT v.typeOf
  | .sliceV t _ => .sliceT t
  | .mapV k t _ => .mapT k t

/-- Mirror of `reflect.Indirect`: dereference a pointer, identity otherwise. -/
def reflectIndirect : GoValue → GoValue
  | .ptrV v => v
  | v => v

/-- ASCII uppercase test (identifiers and column names are ASCII). -/
def isUpperAscii (c : Char) : Bool :=
  65 ≤ c.toNat && c.toNat ≤ 90

/-- ASCII lowercase conversion of one character. -/
def lowChar (c : Char) : Char :=
  if 65 ≤ c.toNat ∧ c.toNat ≤ 90 then Char.ofNat (c.toNat + 32) else c

/-- ASCII lowercase conversion of a string. -/
def strLower (s : String) : String :=
  String.mk (s.data.map lowChar)

/-- Modelled from the spec: the conventional lowercase/underscore transform of a
field identifier, used when no explicit tag names the column (the name-mapping
helper is not part of this repository slice). -/
def camelToSnake (s : String) : String :=
  String.mk (s.data.foldl
    (fun acc c =>
      if isUpperAscii c then
        if acc.isEmpty then acc ++ [lowChar c] else acc ++ ['_', lowChar c]
      else acc ++ [c])
    [])

/-- Modelled from the spec: the column name a field resolves to — the explicit
tag if present and non-empty, `none` for the exclusion sentinel tag `-`, and the
conventional transform of the identifier otherwise. -/
def resolvedColumn (f : FieldSpec) : Option String :=
  match f.tag with
  | some t => if t = "-" then none else if t = "" then some (camelToSnake f.name) else some t
  | none => some (camelToSnake f.name)

/-- Modelled from the spec: case-insensitive column-name match. -/
def colMatch (a b : String) : Bool :=
  strLower a == strLower b

/-- Modelled from the spec: the field, if any, that a result column maps to — the
first field whose resolved column name matches the column case-insensitively. -/
def findFieldFor (specs : List FieldSpec) (col : String) : Option String :=
  (specs.find? (fun f =>
    match resolvedColumn f with
    | some rc => colMatch rc col
    | none => false)).map FieldSpec.name

/-- Modelled from the spec: the first required (non-excluded) field whose resolved
column name matches no returned column, if any. -/
def unmappedField (specs : List FieldSpec) (columns : List String) : Option String :=
  (specs.find? (fun f =>
    match resolvedColumn f with
    | some rc => !(columns.any (fun c => colMatch rc c))
    | none => false)).map FieldSpec.name

/-- Modelled from the spec: `calculateFieldMap` — per result column, the field it
populates (`none` for ignored extra columns); a hard unmapped-field error when a
required field has no matching column and the call is not tolerant. The mapper's
code is not part of this repository slice; the loaders call it with
`tolerant = false`. -/
def calculateFieldMap (recordType : List FieldSpec) (columns : List String)
    (tolerant : Bool) : Except String (List (Option String)) :=
  if tolerant then
    .ok (columns.map (findFieldFor recordType))
  else
    match unmappedField recordType columns with
    | some f => .error ("field " ++ f ++ " has no matching column")
    | none => .ok (columns.map (findFieldFor recordType))

/-- A freshly allocated record of a struct type (`reflect.New`): every field at
its zero value. -/
def zeroRecord (specs : List FieldSpec) : List (FieldSpec × GoValue) :=
  specs.map (fun s => (s, GoValue.intV 0))

/-- The field names of a live record. -/
def fieldNames (fields : List (FieldSpec × GoValue)) : List String :=
  fields.map (fun p => p.1.name)

/-- Update a named field of a record, leaving other fields untouched. -/
def setField (fields : List (FieldSpec × GoValue)) (n : String) (v : GoValue) :
    List (FieldSpec × GoValue) :=
  fields.map (fun p => if p.1.name = n then (p.1, v) else p)

/-- Read a named field of a record. -/
def getField (fields : List (FieldSpec × GoValue)) (n : String) : Option GoValue :=
  (fields.find? (fun p => p.1.name = n)).map Prod.snd

/-- Modelled from the spec: `holderFor` — build the ordered scan targets for a
record and a field map; fails with a field-access error if a mapped field does
not exist on the concrete instance (a defensive check that cannot fire when the
field map was computed from the same record type). The targets themselves are
implicit: scanning is modelled by `scanInto`. -/
def holderFor (fields : List (FieldSpec × GoValue)) (fieldMap : List (Option String)) :
    Except String Unit :=
  match fieldMap.find? (fun o =>
    match o with
    | some n => !((fieldNames fields).contains n)
    | none => false) with
  | some (some n) => .error ("field access error: " ++ n)
  | _ => .ok ()

/-- One row yielded by the cursor: the column values in column order, plus an
abstract driver-side scan failure for this row (`rows.Scan` returning an error). -/
structure Row where
  values : List GoValue
  scanErr : Option String

/-- Write a row's values through the scan targets: column `i` populates the field
`fieldMap` assigns to it; unmapped columns go to a throwaway target. -/
def scanInto (fields : List (FieldSpec × GoValue)) (fieldMap : List (Option String))
    (row : Row) : List (FieldSpec × GoValue) :=
  List.foldl
    (fun acc p =>
      match p.2 with
      | some n => setField acc n (row.values.getD p.1 (GoValue.intV 0))
      | none => acc)
    fields fieldMap.enum

/-- Mirror of `rows.Scan(holder...)`: fails with the row's scan error if any,
otherwise populates the record from the row. -/
def scanRow (fields : List (FieldSpec × GoValue)) (fieldMap : List (Option String))
    (row : Row) : Except String (List (FieldSpec × GoValue)) :=
  match row.scanErr with
  | some e => .error e
  | none => .ok (scanInto fields fieldMap row)

/-- The row cursor returned by the runner: the result of `rows.Columns()`, the
rows `rows.Next()`/`rows.Scan` will yield, and the iteration error `rows.Err()`
reports after the loop. -/
structure Cursor where
  columnsRes : Except String (List String)
  rows : List Row
  iterErr : Option String

/-- The builder with its collaborators' responses for one call: the result of
`Interpolate(b.ToSql())` and the result of `b.runner.Query(fullSql)`. -/
structure SelectBuilder where
  interpolateRes : Except String String
  queryRes : Except String Cursor

/-- Errors a loader can return: the distinguished `ErrNotFound`; an error tagged
by `EventErrKv` with operation identifier and query text; an error tagged by
`EventErr` with operation identifier only; and an underlying error returned
untagged (`return err`). -/
inductive LoadErr where
  | notFound
  | tagged (op underlying sql : String)
  | taggedOp (op underlying : String)
  | untagged (underlying : String)
deriving DecidableEq

/-- Events forwarded to the event sink: a timing record and the two error-event
shapes (`EventErrKv` with query text, `EventErr` without). -/
inductive Event where
  | timing (metric sql : String)
  | errKv (op underlying sql : String)
  | errEvt (op underlying : String)
deriving DecidableEq

/-- Outcome of a loader call: a panic (contract violation) or a normal return. -/
inductive Outcome (α : Type) where
  | panicked (msg : String)
  | ok (res : α)

/-- Whether an outcome is a panic. -/
def Outcome.isPanicked {α : Type} : Outcome α → Bool
  | .panicked _ => true
  | .ok _ => false

/-- Normal return of `LoadAll`: the row count, the returned error if any, the
destination as left by the call, and the events forwarded to the sink in order. -/
structure LoadAllOut where
  rowCount : Nat
  err : Option LoadErr
  dest : GoValue
  events : List Event

/-- Normal return of `LoadOne` / `LoadValue`: the returned error if any, the
destination as left by the call, and the events forwarded to the sink. -/
structure LoadOneOut where
  err : Option LoadErr
  dest : GoValue
  events : List Event

/-- The existing elements of a slice destination (`sliceValue := valueOfDest`
starts from the current contents). -/
def destSliceElems : GoValue → List GoValue
  | .ptrV (.sliceV _ elems) => elems
  | _ => []

/-- Commit the accumulated slice back through the destination pointer
(`valueOfDest.Set(sliceValue)`). -/
def setSliceDest : GoValue → List GoValue → GoValue
  | .ptrV (.sliceV t _), elems => .ptrV (.sliceV t elems)
  | d, _ => d

/-- The struct fields behind a pointer-to-struct destination. -/
def destStructFields : GoValue → List (FieldSpec × GoValue)
  | .ptrV (.structV fields) => fields
  | _ => []

/-- The row loop of `LoadAll`'s slice branch: per row, allocate a fresh record,
build its holder, scan the row into it and append the pointer to the accumulated
slice; on the first failing step, stop with the failing operation's identifier,
the underlying error, and the count of rows processed so far. -/
def loadAllLoop (specs : List FieldSpec) (fieldMap : List (Option String)) :
    List Row → List GoValue → Nat → Nat × Option (String × String) × List GoValue
  | [], acc, n => (n, none, acc)
  | row :: rest, acc, n =>
    match holderFor (zeroRecord specs) fieldMap with
    | .error e => (n, some ("dbr.select.load_all.holderFor", e), acc)
    | .ok _ =>
      match scanRow (zeroRecord specs) fieldMap row with
      | .error e => (n, some ("dbr.select.load_all.scan", e), acc)
      | .ok newRec =>
        loadAllLoop specs fieldMap rest (acc ++ [.ptrV (.structV newRec)]) (n + 1)

/-- The destination validation of `LoadAll` (lines 27–51 of the source): a
pointer is dereferenced once, a map passes directly, anything else panics; the
dereferenced value must be a map or slice; its element type must be a pointer to
a struct. Returns whether the slice branch runs, and the record type's specs. -/
def loadAllValidate (dest : GoValue) : Except String (Bool × List FieldSpec) :=
  let kind0 := kindOf dest
  if kind0 = Kind.ptrK ∨ kind0 = Kind.mapK then
    let valueOfDest := if kind0 = Kind.ptrK then reflectIndirect dest else dest
    let kindOfDest := kindOf valueOfDest
    if kindOfDest = Kind.mapK ∨ kindOfDest = Kind.sliceK then
      let recordType0 := GoType.elem (GoValue.typeOf valueOfDest)
      if GoType.kind recordType0 = Kind.ptrK then
        let recordType := GoType.elem recordType0
        if GoType.kind recordType = Kind.structK then
          .ok (match kindOfDest with | Kind.sliceK => true | _ => false,
               recordType.structSpecs)
        else .error "Elements need to be pointers to structures"
      else .error "Elements need to be pointers to structures"
    else .error "invalid type passed to LoadAll. Need a map or addr of slice"
  else .error "invalid type passed to LoadAll. Need a map or addr of slice"

/-- The final `rows.Err()` check of `LoadAll` (reached with the accumulated
count and the destination as left by the branch that ran): a set iteration
error is returned tagged with the count so far; otherwise the call succeeds. -/
def loadAllIterCheck : Option String → Nat → GoValue → String → LoadAllOut
  | some e, n, dest2, fullSql =>
    ⟨n, some (.tagged "dbr.select.load_all.rows_err" e fullSql), dest2,
     [.errKv "dbr.select.load_all.rows_err" e fullSql]⟩
  | none, n, dest2, _ => ⟨n, none, dest2, []⟩

/-- Dispatch on the slice loop's result: a per-row failure returns the partial
count with the tagged error, leaving the destination untouched (the commit at
the end of the loop never ran); a clean loop commits the accumulated slice
through the destination pointer and proceeds to the `rows.Err()` check. -/
def loadAllAfterLoop : Nat × Option (String × String) × List GoValue →
    Cursor → GoValue → String → LoadAllOut
  | (n, some (op, e), _), _, dest, fullSql =>
    ⟨n, some (.tagged op e fullSql), dest, [.errKv op e fullSql]⟩
  | (n, none, newElems), rows, dest, fullSql =>
    loadAllIterCheck rows.iterErr n (setSliceDest dest newElems) fullSql

/-- Dispatch on the field-map result: a mapping failure is returned tagged
before any row is read; otherwise the slice branch runs the row loop (starting
from the destination's existing elements), while the map branch — empty in the
source — reads no rows, touches nothing and goes straight to the `rows.Err()`
check with a zero count. -/
def loadAllWithFieldMap : Except String (List (Option String)) →
    Cursor → GoValue → Bool → List FieldSpec → String → LoadAllOut
  | .error e, _, dest, _, _, fullSql =>
    ⟨0, some (.tagged "dbr.select.load_all.calculateFieldMap" e fullSql), dest,
     [.errKv "dbr.select.load_all.calculateFieldMap" e fullSql]⟩
  | .ok fieldMap, rows, dest, isSlice, specs, fullSql =>
    if isSlice then
      loadAllAfterLoop (loadAllLoop specs fieldMap rows.rows (destSliceElems dest) 0)
        rows dest fullSql
    else
      loadAllIterCheck rows.iterErr 0 dest fullSql

/-- Dispatch on the column-introspection result: a failure is returned tagged
(with the source's mislabelled `load_one` operation identifier); otherwise the
non-tolerant field map is built. -/
def loadAllWithColumns : Except String (List String) →
    Cursor → GoValue → Bool → List FieldSpec → String → LoadAllOut
  | .error e, _, dest, _, _, fullSql =>
    ⟨0, some (.tagged "dbr.select.load_one.rows.Columns" e fullSql), dest,
     [.errKv "dbr.select.load_one.rows.Columns" e fullSql]⟩
  | .ok columns, rows, dest, isSlice, specs, fullSql =>
    loadAllWithFieldMap (calculateFieldMap specs columns false)
      rows dest isSlice specs fullSql

/-- Dispatch on the query result: a failure is returned tagged; otherwise the
columns are read from the cursor. -/
def loadAllWithQuery : Except String Cursor →
    GoValue → Bool → List FieldSpec → String → LoadAllOut
  | .error e, dest, _, _, fullSql =>
    ⟨0, some (.tagged "dbr.select.load_all.query" e fullSql), dest,
     [.errKv "dbr.select.load_all.query" e fullSql]⟩
  | .ok rows, dest, isSlice, specs, fullSql =>
    loadAllWithColumns rows.columnsRes rows dest isSlice specs fullSql

/-- Dispatch on the interpolation result: a failure is returned tagged by
`EventErr` (operation identifier only, before the timer starts); otherwise the
query runs and the deferred timing event is appended to whatever the rest of
the call forwarded. -/
def loadAllWithSql : Except String String →
    SelectBuilder → GoValue → Bool → List FieldSpec → Outcome LoadAllOut
  | .error e, _, dest, _, _ =>
    .ok ⟨0, some (.taggedOp "dbr.select.load_all.interpolate" e), dest,
         [.errEvt "dbr.select.load_all.interpolate" e]⟩
  | .ok fullSql, b, dest, isSlice, specs =>
    let out := loadAllWithQuery b.queryRes dest isSlice specs fullSql
    .ok ⟨out.rowCount, out.err, out.dest, out.events ++ [.timing "dbr.select" fullSql]⟩

/-- Dispatch on the validation result: contract violations panic; otherwise the
query text is interpolated. -/
def loadAllValidated : Except String (Bool × List FieldSpec) →
    SelectBuilder → GoValue → Outcome LoadAllOut
  | .error msg, _, _ => .panicked msg
  | .ok (isSlice, specs), b, dest => loadAllWithSql b.interpolateRes b dest isSlice specs

/-- `SelectBuilder.LoadAll`, staged exactly as the source's sequence of
`if err != nil` checks: validate the destination, interpolate, query, read
columns, build the non-tolerant field map, run the slice loop (or the empty map
branch), check `rows.Err()`. -/
def LoadAll (b : SelectBuilder) (dest : GoValue) : Outcome LoadAllOut :=
  loadAllValidated (loadAllValidate dest) b dest

/-- Dispatch on `LoadOne`'s row scan into the caller's own struct instance: a
scan failure is returned tagged; success commits the populated record behind
the destination pointer and returns nil. -/
def loadOneAfterScan : Except String (List (FieldSpec × GoValue)) →
    GoValue → String → LoadOneOut
  | .error e, dest, fullSql =>
    ⟨some (.tagged "dbr.select.load_one.scan" e fullSql), dest,
     [.errKv "dbr.select.load_one.scan" e fullSql]⟩
  | .ok newFields, _, _ => ⟨none, .ptrV (.structV newFields), []⟩

/-- Dispatch on `LoadOne`'s holder construction over the caller's instance: a
failure is returned tagged; otherwise the first row is scanned. -/
def loadOneAfterHolder : Except String Unit →
    Row → List (Option String) → GoValue → String → LoadOneOut
  | .error e, _, _, dest, fullSql =>
    ⟨some (.tagged "dbr.select.load_one.holderFor" e fullSql), dest,
     [.errKv "dbr.select.load_one.holderFor" e fullSql]⟩
  | .ok _, row, fieldMap, dest, fullSql =>
    loadOneAfterScan (scanRow (destStructFields dest) fieldMap row) dest fullSql

/-- Dispatch on whether the cursor yields a first row: with one, `LoadOne`
builds the holder and scans it (later rows are never consulted); with none, a
set `rows.Err()` is returned tagged, and otherwise the distinguished
`ErrNotFound`. -/
def loadOneRows : List Row →
    Cursor → List (Option String) → GoValue → String → LoadOneOut
  | row :: _, _, fieldMap, dest, fullSql =>
    loadOneAfterHolder (holderFor (destStructFields dest) fieldMap)
      row fieldMap dest fullSql
  | [], rows, _, dest, fullSql =>
    match rows.iterErr with
    | some e =>
      ⟨some (.tagged "dbr.select.load_one.rows_err" e fullSql), dest,
       [.errKv "dbr.select.load_one.rows_err" e fullSql]⟩
    | none => ⟨some .notFound, dest, []⟩

/-- Dispatch on `LoadOne`'s field-map result: a mapping failure is returned
tagged before any row is read; otherwise the cursor is advanced. -/
def loadOneWithFieldMap : Except String (List (Option String)) →
    Cursor → GoValue → String → LoadOneOut
  | .error e, _, dest, fullSql =>
    ⟨some (.tagged "dbr.select.load_one.calculateFieldMap" e fullSql), dest,
     [.errKv "dbr.select.load_one.calculateFieldMap" e fullSql]⟩
  | .ok fieldMap, rows, dest, fullSql =>
    loadOneRows rows.rows rows fieldMap dest fullSql

/-- Dispatch on `LoadOne`'s column-introspection result. -/
def loadOneWithColumns : Except String (List String) →
    Cursor → GoValue → String → LoadOneOut
  | .error e, _, dest, fullSql =>
    ⟨some (.tagged "dbr.select.load_one.rows.Columns" e fullSql), dest,
     [.errKv "dbr.select.load_one.rows.Columns" e fullSql]⟩
  | .ok columns, rows, dest, fullSql =>
    loadOneWithFieldMap
      (calculateFieldMap ((destStructFields dest).map Prod.fst) columns false)
      rows dest fullSql

/-- Dispatch on `LoadOne`'s query result. -/
def loadOneWithQuery : Except String Cursor → GoValue → String → LoadOneOut
  | .error e, dest, fullSql =>
    ⟨some (.tagged "dbr.select.load_one.query" e fullSql), dest,
     [.errKv "dbr.select.load_one.query" e fullSql]⟩
  | .ok rows, dest, fullSql =>
    loadOneWithColumns rows.columnsRes rows dest fullSql

/-- Dispatch on `LoadOne`'s interpolation result: a failure is returned as the
underlying error, untagged and unforwarded (`return err`, before the timer
starts); otherwise the query runs and the deferred timing event is appended. -/
def loadOneWithSql : Except String String → SelectBuilder → GoValue → Outcome LoadOneOut
  | .error e, _, dest => .ok ⟨some (.untagged e), dest, []⟩
  | .ok fullSql, b, dest =>
    let out := loadOneWithQuery b.queryRes dest fullSql
    .ok ⟨out.err, out.dest, out.events ++ [.timing "dbr.select" fullSql]⟩

/-- `SelectBuilder.LoadOne`: panic unless the destination is a pointer whose
dereference is a struct; then interpolate, query, read columns, build the
non-tolerant field map, and populate the caller's instance from the first row
(or return `ErrNotFound`). -/
def LoadOne (b : SelectBuilder) (dest : GoValue) : Outcome LoadOneOut :=
  if kindOf dest = Kind.ptrK ∧ kindOf (reflectIndirect dest) = Kind.structK then
    loadOneWithSql b.interpolateRes b dest
  else .panicked "you need to pass in the address of a struct"

/-- Dispatch on whether the cursor yields a first row for `LoadValue`: with one,
the row is scanned directly into the destination pointer (the first column's
value lands behind it — no column introspection, no field mapping, no
struct-shape check); with none, a set `rows.Err()` is returned tagged, and
otherwise the distinguished `ErrNotFound`. -/
def loadValueRows : List Row → Cursor → GoValue → String → LoadOneOut
  | row :: _, _, dest, fullSql =>
    match row.scanErr with
    | some e =>
      ⟨some (.tagged "dbr.select.load_value.scan" e fullSql), dest,
       [.errKv "dbr.select.load_value.scan" e fullSql]⟩
    | none => ⟨none, .ptrV (row.values.headD (GoValue.intV 0)), []⟩
  | [], rows, dest, fullSql =>
    match rows.iterErr with
    | some e =>
      ⟨some (.tagged "dbr.select.load_value.rows_err" e fullSql), dest,
       [.errKv "dbr.select.load_value.rows_err" e fullSql]⟩
    | none => ⟨some .notFound, dest, []⟩

/-- Dispatch on `LoadValue`'s query result. -/
def loadValueWithQuery : Except String Cursor → GoValue → String → LoadOneOut
  | .error e, dest, fullSql =>
    ⟨some (.tagged "dbr.select.load_value.query" e fullSql), dest,
     [.errKv "dbr.select.load_value.query" e fullSql]⟩
  | .ok rows, dest, fullSql => loadValueRows rows.rows rows dest fullSql

/-- Dispatch on `LoadValue`'s interpolation result: a failure is returned as the
underlying error, untagged and unforwarded; otherwise the query runs and the
deferred timing event is appended. -/
def loadValueWithSql : Except String String → SelectBuilder → GoValue → Outcome LoadOneOut
  | .error e, _, dest => .ok ⟨some (.untagged e), dest, []⟩
  | .ok fullSql, b, dest =>
    let out := loadValueWithQuery b.queryRes dest fullSql
    .ok ⟨out.err, out.dest, out.events ++ [.timing "dbr.select" fullSql]⟩

/-- `SelectBuilder.LoadValue`: panic unless the destination is a pointer (the
only validation performed); then interpolate, query, and scan the first row
directly into the destination (or return `ErrNotFound`). -/
def LoadValue (b : SelectBuilder) (dest : GoValue) : Outcome LoadOneOut :=
  if kindOf dest = Kind.ptrK then
    loadValueWithSql b.interpolateRes b dest
  else .panicked "Destination must be a pointer"

/-- The destination shapes `LoadAll` accepts without panicking: a map, a pointer
to a map, or a pointer to a slice, in each case with element type
pointer-to-struct. -/
def validLoadAllDest : GoValue → Bool
  | .mapV _ (.ptrT (.structT _)) _ => true
  | .ptrV (.mapV _ (.ptrT (.structT _)) _) => true
  | .ptrV (.sliceV (.ptrT (.structT _)) _) => true
  | _ => false

/-- The destination shapes `LoadOne` accepts without panicking: a pointer to a
struct. -/
def validLoadOneDest : GoValue → Bool
  | .ptrV (.structV _) => true
  | _ => false

/-- Whether a value is of pointer kind (the only check `LoadValue` performs). -/
def kindIsPtr (v : GoValue) : Bool :=
  match kindOf v with
  | Kind.ptrK => true
  | _ => false

/-- The record pointer `LoadAll`'s slice branch appends for one row: a fresh
zero record scanned from the row through the field map. -/
def recOf (specs : List FieldSpec) (fieldMap : List (Option String)) (row : Row) :
    GoValue :=
  .ptrV (.structV (scanInto (zeroRecord specs) fieldMap row))

/-- Whether a field has a matching result column (its resolved column name
matches some returned column case-insensitively). -/
def fieldMapped (columns : List String) (f : FieldSpec) : Bool :=
  match resolvedColumn f with
  | some rc => columns.any (fun c => colMatch rc c)
  | none => false

/-- Whether two fields resolve to clashing (case-insensitively matching) column
names. -/
def specsClash (f g : FieldSpec) : Bool :=
  match resolvedColumn f, resolvedColumn g with
  | some a, some b => colMatch a b
  | _, _ => false

/-- Whether no two distinct fields of a record type resolve to clashing column
names (unambiguous mapping). -/
def specsDistinct : List FieldSpec → Bool
  | [] => true
  | f :: rest => rest.all (fun g => !(specsClash f g)) && specsDistinct rest

/-- An error in the shape the sink received it: a `tagged` error was forwarded as
the matching `errKv` event, a `taggedOp` error as the matching `errEvt` event;
not-found and untagged errors were never forwarded. -/
def ErrForwarded : LoadErr → List Event → Prop
  | .tagged op u sql, evs => Event.errKv op u sql ∈ evs
  | .taggedOp op u, evs => Event.errEvt op u ∈ evs
  | _, _ => False

/-- Whether an `Except` value is a success. -/
def exceptOk {ε α : Type} : Except ε α → Bool
  | .ok _ => true
  | .error _ => false

/-- A record type with a single exported field `Id` and no tag (its resolved
column is `id`), used by the concrete evaluation and witness theorems. -/
def specId : FieldSpec := ⟨"Id", none⟩

/-- A cursor yielding two rows that share the key value 7, with column `id`. -/
def cexMapCursor : Cursor := ⟨.ok ["id"], [⟨[.intV 7], none⟩, ⟨[.intV 7], none⟩], none⟩

/-- A builder whose collaborators all succeed, over `cexMapCursor`. -/
def cexMapBuilder : SelectBuilder := ⟨.ok "q", .ok cexMapCursor⟩

/-- An empty map destination keyed by int with element type pointer-to-struct. -/
def cexMapDest : GoValue := .mapV .intT (.ptrT (.structT [specId])) []

/-- A builder whose query fails (never reached when validation panics). -/
def cexPtrMapBuilder : SelectBuilder := ⟨.ok "q", .error "x"⟩

/-- A pointer to a map destination — by kind a pointer, not a map. -/
def cexPtrMapDest : GoValue := .ptrV (.mapV .intT (.ptrT (.structT [specId])) [])

/-- A builder whose interpolation fails. -/
def cexInterpBuilder : SelectBuilder := ⟨.error "boom", .ok ⟨.ok [], [], none⟩⟩

/-- A pointer-to-struct destination with the single field `Id`. -/
def cexOneDest : GoValue := .ptrV (.structV [(specId, .intV 0)])

/-- A pointer-to-empty-slice destination with element type pointer-to-struct. -/
def cexSliceDest : GoValue := .ptrV (.sliceV (.ptrT (.structT [specId])) [])

/-- A cursor yielding one clean row `(5)` with column `id`. -/
def wCursorOK : Cursor := ⟨.ok ["id"], [⟨[.intV 5], none⟩], none⟩

/-- A builder whose collaborators all succeed, over `wCursorOK`. -/
def wBuilderOK : SelectBuilder := ⟨.ok "q", .ok wCursorOK⟩

/-- A cursor yielding no rows and no iteration error, with column `id`. -/
def wCursorEmpty : Cursor := ⟨.ok ["id"], [], none⟩

/-- A builder over the empty cursor. -/
def wBuilderEmpty : SelectBuilder := ⟨.ok "q", .ok wCursorEmpty⟩

/-- A cursor whose second row fails to scan. -/
def wCursorScanFail : Cursor :=
  ⟨.ok ["id"], [⟨[.intV 5], none⟩, ⟨[.intV 6], some "bad"⟩], none⟩

/-- A builder over the scan-failing cursor. -/
def wBuilderScanFail : SelectBuilder := ⟨.ok "q", .ok wCursorScanFail⟩

/-- A cursor with one clean row and an end-of-iteration error. -/
def wCursorIterFail : Cursor := ⟨.ok ["id"], [⟨[.intV 5], none⟩], some "iter"⟩

/-- A builder over the iteration-failing cursor. -/
def wBuilderIterFail : SelectBuilder := ⟨.ok "q", .ok wCursorIterFail⟩

/-- A cursor whose only column `nope` matches no field of `[specId]`. -/
def wCursorNoCol : Cursor := ⟨.ok ["nope"], [⟨[.intV 5], none⟩], none⟩

/-- A builder over the unmatchable-column cursor. -/
def wBuilderNoCol : SelectBuilder := ⟨.ok "q", .ok wCursorNoCol⟩

/-- A slice destination holding one pre-existing record (for accumulation and
unchanged-on-failure scenarios). -/
def wSliceDest99 : GoValue :=
  .ptrV (.sliceV (.ptrT (.structT [specId])) [.ptrV (.structV [(specId, .intV 99)])])

section Lemmas

/-- A successful non-tolerant field map is precisely the per-column lookup. -/
theorem calculateFieldMap_ok_eq (specs : List FieldSpec) (cols : List String)
    (t : Bool) (fm : List (Option String))
    (h : calculateFieldMap specs cols t = Except.ok fm) :
    fm = cols.map (findFieldFor specs) := by
  cases t with
  | true => simpa [calculateFieldMap] using h.symm
  | false =>
    unfold calculateFieldMap at h
    cases hu : unmappedField specs cols with
    | some f => simp [hu] at h
    | none => simp [hu] at h; exact h.symm

/-- The field names of a freshly allocated record are the record type's names. -/
theorem fieldNames_zeroRecord (specs : List FieldSpec) :
    fieldNames (zeroRecord specs) = specs.map FieldSpec.name := by
  simp [fieldNames, zeroRecord, List.map_map]

/-- A column lookup only ever answers with the name of a field of the record
type. -/
theorem findFieldFor_mem_names (specs : List FieldSpec) (c : String) (nm : String)
    (h : findFieldFor specs c = some nm) : nm ∈ specs.map FieldSpec.name := by
  unfold findFieldFor at h
  cases hf : List.find? (fun f =>
      match resolvedColumn f with
      | some rc => colMatch rc c
      | none => false) specs with
  | none => rw [hf] at h; simp at h
  | some f =>
    rw [hf] at h
    simp at h
    exact h ▸ List.mem_map_of_mem FieldSpec.name (List.mem_of_find?_eq_some hf)

/-- Holder construction succeeds on any record whose field names are the record
type's names, when the field map came from the per-column lookup on that record
type. -/
theorem holderFor_findFieldFor (fields : List (FieldSpec × GoValue))
    (specs : List FieldSpec) (cols : List String)
    (hnames : fieldNames fields = specs.map FieldSpec.name) :
    holderFor fields (cols.map (findFieldFor specs)) = Except.ok () := by
  unfold holderFor
  have hfind : List.find? (fun o =>
      match o with
      | some n => !((fieldNames fields).contains n)
      | none => false) (cols.map (findFieldFor specs)) = none := by
    rw [List.find?_eq_none]
    intro x hx
    rcases List.mem_map.mp hx with ⟨c, _, hc⟩
    cases x with
    | none => simp
    | some nm =>
      have hmem : nm ∈ fieldNames fields := by
        rw [hnames]; exact findFieldFor_mem_names specs c nm hc
      simp only [Bool.not_eq_true']
      simp
      exact hmem
  rw [hfind]

/-- Holder construction always succeeds on the fresh records `LoadAll`
allocates, because the field map was computed from the same record type. -/
theorem holderFor_zeroRecord (specs : List FieldSpec) (cols : List String) :
    holderFor (zeroRecord specs) (cols.map (findFieldFor specs)) = Except.ok () :=
  holderFor_findFieldFor (zeroRecord specs) specs cols (fieldNames_zeroRecord specs)

/-- The slice-branch loop on rows that all scan cleanly: it counts every row and
appends the freshly scanned records in row order. -/
theorem loadAllLoop_ok (specs : List FieldSpec) (fm : List (Option String))
    (hh : holderFor (zeroRecord specs) fm = Except.ok ()) :
    ∀ (rows : List Row), (∀ r ∈ rows, r.scanErr = none) →
    ∀ (acc : List GoValue) (n : Nat),
      loadAllLoop specs fm rows acc n =
        (n + rows.length, none, acc ++ rows.map (recOf specs fm)) := by
  intro rows
  induction rows with
  | nil => intro _ acc n; simp [loadAllLoop]
  | cons row rest ih =>
    intro h acc n
    have hr : row.scanErr = none := h row (List.mem_cons_self row rest)
    have hrest : ∀ r ∈ rest, r.scanErr = none := fun r hm => h r (List.mem_cons_of_mem row hm)
    unfold loadAllLoop
    rw [hh]
    simp only [scanRow, hr]
    rw [ih hrest]
    simp [recOf]
    omega

/-- The slice-branch loop stops at the first row whose scan fails, reporting the
scan operation, the underlying error and the count of rows already processed,
and discarding the records accumulated so far. -/
theorem loadAllLoop_scanFail (specs : List FieldSpec) (fm : List (Option String))
    (hh : holderFor (zeroRecord specs) fm = Except.ok ()) (e : String) :
    ∀ (pre : List Row), (∀ r ∈ pre, r.scanErr = none) →
    ∀ (bad : Row), bad.scanErr = some e →
    ∀ (rest : List Row) (acc : List GoValue) (n : Nat),
      loadAllLoop specs fm (pre ++ bad :: rest) acc n =
        (n + pre.length, some ("dbr.select.load_all.scan", e), acc ++ pre.map (recOf specs fm)) := by
  intro pre
  induction pre with
  | nil =>
    intro _ bad hbad rest acc n
    simp only [List.nil_append]
    unfold loadAllLoop
    rw [hh]
    simp [scanRow, hbad]
  | cons row tailPre ih =>
    intro h bad hbad rest acc n
    have hr : row.scanErr = none := h row (List.mem_cons_self row tailPre)
    have htail : ∀ r ∈ tailPre, r.scanErr = none := fun r hm => h r (List.mem_cons_of_mem row hm)
    simp only [List.cons_append]
    unfold loadAllLoop
    rw [hh]
    simp only [scanRow, hr]
    rw [ih htail bad hbad rest]
    simp [recOf]
    omega

/-- Validation accepts a pointer to a slice of pointers to structs and selects
the slice branch. -/
theorem loadAllValidate_slice (specs : List FieldSpec) (elems : List GoValue) :
    loadAllValidate (.ptrV (.sliceV (.ptrT (.structT specs)) elems)) =
      Except.ok (true, specs) := rfl

/-- A fully successful `LoadAll` into a slice destination: the count is the
number of rows yielded, the slice grows by exactly the scanned records in row
order (prior contents preserved), and only the timing event is emitted. -/
theorem loadAll_slice_success (b : SelectBuilder) (specs : List FieldSpec)
    (elems : List GoValue) (sql : String) (cur : Cursor) (cols : List String)
    (fm : List (Option String))
    (hI : b.interpolateRes = Except.ok sql) (hQ : b.queryRes = Except.ok cur)
    (hC : cur.columnsRes = Except.ok cols)
    (hFM : calculateFieldMap specs cols false = Except.ok fm)
    (hscan : ∀ r ∈ cur.rows, r.scanErr = none)
    (hiter : cur.iterErr = none) :
    LoadAll b (.ptrV (.sliceV (.ptrT (.structT specs)) elems)) =
      .ok ⟨cur.rows.length, none,
           .ptrV (.sliceV (.ptrT (.structT specs)) (elems ++ cur.rows.map (recOf specs fm))),
           [.timing "dbr.select" sql]⟩ := by
  have fmEq : fm = cols.map (findFieldFor specs) :=
    calculateFieldMap_ok_eq specs cols false fm hFM
  have hh : holderFor (zeroRecord specs) fm = Except.ok () := by
    rw [fmEq]; exact holderFor_zeroRecord specs cols
  have hloop := loadAllLoop_ok specs fm hh cur.rows hscan elems 0
  unfold LoadAll
  rw [loadAllValidate_slice]
  simp only [loadAllValidated, hI, loadAllWithSql, hQ, loadAllWithQuery, hC,
    loadAllWithColumns, hFM, loadAllWithFieldMap, if_true, hloop,
    loadAllAfterLoop, hiter, loadAllIterCheck, destSliceElems, setSliceDest,
    Nat.zero_add, List.nil_append, List.singleton_append]

/-- `LoadAll` into a slice destination when some row's scan fails after a prefix
of clean rows: the call returns the prefix length with the tagged scan error,
forwards the matching event, and leaves the destination untouched. -/
theorem loadAll_slice_scanFail (b : SelectBuilder) (specs : List FieldSpec)
    (elems : List GoValue) (sql : String) (cur : Cursor) (cols : List String)
    (fm : List (Option String)) (pre : List Row) (bad : Row) (rest : List Row)
    (e : String)
    (hI : b.interpolateRes = Except.ok sql) (hQ : b.queryRes = Except.ok cur)
    (hC : cur.columnsRes = Except.ok cols)
    (hFM : calculateFieldMap specs cols false = Except.ok fm)
    (hrows : cur.rows = pre ++ bad :: rest)
    (hpre : ∀ r ∈ pre, r.scanErr = none)
    (hbad : bad.scanErr = some e) :
    LoadAll b (.ptrV (.sliceV (.ptrT (.structT specs)) elems)) =
      .ok ⟨pre.length, some (.tagged "dbr.select.load_all.scan" e sql),
           .ptrV (.sliceV (.ptrT (.structT specs)) elems),
           [.errKv "dbr.select.load_all.scan" e sql, .timing "dbr.select" sql]⟩ := by
  have fmEq : fm = cols.map (findFieldFor specs) :=
    calculateFieldMap_ok_eq specs cols false fm hFM
  have hh : holderFor (zeroRecord specs) fm = Except.ok () := by
    rw [fmEq]; exact holderFor_zeroRecord specs cols
  have hloop := loadAllLoop_scanFail specs fm hh e pre hpre bad hbad rest elems 0
  unfold LoadAll
  rw [loadAllValidate_slice]
  simp only [loadAllValidated, hI, loadAllWithSql, hQ, loadAllWithQuery, hC,
    loadAllWithColumns, hFM, loadAllWithFieldMap, if_true, hrows, destSliceElems,
    hloop, loadAllAfterLoop, Nat.zero_add, List.nil_append, List.singleton_append]

/-- `LoadAll` into a slice destination when every row scans cleanly but the
cursor reports an end-of-iteration error: the call returns the full count with
the tagged iteration error; the slice has already been committed. -/
theorem loadAll_slice_iterFail (b : SelectBuilder) (specs : List FieldSpec)
    (elems : List GoValue) (sql : String) (cur : Cursor) (cols : List String)
    (fm : List (Option String)) (e : String)
    (hI : b.interpolateRes = Except.ok sql) (hQ : b.queryRes = Except.ok cur)
    (hC : cur.columnsRes = Except.ok cols)
    (hFM : calculateFieldMap specs cols false = Except.ok fm)
    (hscan : ∀ r ∈ cur.rows, r.scanErr = none)
    (hiter : cur.iterErr = some e) :
    LoadAll b (.ptrV (.sliceV (.ptrT (.structT specs)) elems)) =
      .ok ⟨cur.rows.length, some (.tagged "dbr.select.load_all.rows_err" e sql),
           .ptrV (.sliceV (.ptrT (.structT specs)) (elems ++ cur.rows.map (recOf specs fm))),
           [.errKv "dbr.select.load_all.rows_err" e sql, .timing "dbr.select" sql]⟩ := by
  have fmEq : fm = cols.map (findFieldFor specs) :=
    calculateFieldMap_ok_eq specs cols false fm hFM
  have hh : holderFor (zeroRecord specs) fm = Except.ok () := by
    rw [fmEq]; exact holderFor_zeroRecord specs cols
  have hloop := loadAllLoop_ok specs fm hh cur.rows hscan elems 0
  unfold LoadAll
  rw [loadAllValidate_slice]
  simp only [loadAllValidated, hI, loadAllWithSql, hQ, loadAllWithQuery, hC,
    loadAllWithColumns, hFM, loadAllWithFieldMap, if_true, hloop,
    loadAllAfterLoop, hiter, loadAllIterCheck, destSliceElems, setSliceDest,
    Nat.zero_add, List.nil_append, List.singleton_append]

/-- `LoadOne` on a first row that scans cleanly, when the field map and holder
succeed: the caller's own record is populated from that row and committed
behind the destination pointer, nil is returned, and only the timing event is
emitted. -/
theorem loadOne_firstRow (b : SelectBuilder) (fields : List (FieldSpec × GoValue))
    (sql : String) (cur : Cursor) (cols : List String) (fm : List (Option String))
    (row : Row) (rest : List Row)
    (hI : b.interpolateRes = Except.ok sql) (hQ : b.queryRes = Except.ok cur)
    (hC : cur.columnsRes = Except.ok cols)
    (hFM : calculateFieldMap (fields.map Prod.fst) cols false = Except.ok fm)
    (hrows : cur.rows = row :: rest) (hscan : row.scanErr = none)
    (hhold : holderFor fields fm = Except.ok ()) :
    LoadOne b (.ptrV (.structV fields)) =
      .ok ⟨none, .ptrV (.structV (scanInto fields fm row)), [.timing "dbr.select" sql]⟩ := by
  rw [LoadOne, if_pos ⟨rfl, rfl⟩]
  simp only [hI, loadOneWithSql, hQ, loadOneWithQuery, hC, loadOneWithColumns,
    destStructFields, hFM, loadOneWithFieldMap, hrows, loadOneRows, hhold,
    loadOneAfterHolder, scanRow, hscan, loadOneAfterScan, List.nil_append]

/-- `LoadOne` on a cursor that yields no rows and reports no iteration error:
the distinguished `ErrNotFound` is returned, the destination is untouched, and
only the timing event is emitted. -/
theorem loadOne_notFound (b : SelectBuilder) (fields : List (FieldSpec × GoValue))
    (sql : String) (cur : Cursor) (cols : List String) (fm : List (Option String))
    (hI : b.interpolateRes = Except.ok sql) (hQ : b.queryRes = Except.ok cur)
    (hC : cur.columnsRes = Except.ok cols)
    (hFM : calculateFieldMap (fields.map Prod.fst) cols false = Except.ok fm)
    (hrows : cur.rows = []) (hiter : cur.iterErr = none) :
    LoadOne b (.ptrV (.structV fields)) =
      .ok ⟨some .notFound, .ptrV (.structV fields), [.timing "dbr.select" sql]⟩ := by
  rw [LoadOne, if_pos ⟨rfl, rfl⟩]
  simp only [hI, loadOneWithSql, hQ, loadOneWithQuery, hC, loadOneWithColumns,
    destStructFields, hFM, loadOneWithFieldMap, hrows, loadOneRows, hiter,
    List.nil_append]

/-- `LoadAll`'s validation succeeds exactly on the accepted destination shapes:
a map, a pointer to a map, or a pointer to a slice, with element type
pointer-to-struct. -/
theorem loadAllValidate_isOk (dest : GoValue) :
    exceptOk (loadAllValidate dest) = validLoadAllDest dest := by
  cases dest with
  | intV n => rfl
  | stringV s => rfl
  | structV fields => rfl
  | sliceV t elems => rfl
  | mapV k t entries =>
    cases t with
    | ptrT t2 => cases t2 <;> rfl
    | intT => rfl
    | stringT => rfl
    | structT s => rfl
    | sliceT t3 => rfl
    | mapT a c => rfl
  | ptrV p =>
    cases p with
    | intV n => rfl
    | stringV s => rfl
    | structV fields => rfl
    | ptrV q => rfl
    | sliceV t elems =>
      cases t with
      | ptrT t2 => cases t2 <;> rfl
      | intT => rfl
      | stringT => rfl
      | structT s => rfl
      | sliceT t3 => rfl
      | mapT a c => rfl
    | mapV k t entries =>
      cases t with
      | ptrT t2 => cases t2 <;> rfl
      | intT => rfl
      | stringT => rfl
      | structT s => rfl
      | sliceT t3 => rfl
      | mapT a c => rfl

/-- `LoadAll` panics exactly on destinations outside the accepted shapes, and
does so during validation: no query, no events, no returned error. -/
theorem LoadAll_isPanicked (b : SelectBuilder) (dest : GoValue) :
    (LoadAll b dest).isPanicked = !(validLoadAllDest dest) := by
  have h := loadAllValidate_isOk dest
  cases hv : loadAllValidate dest with
  | error m =>
    rw [hv] at h
    simp only [exceptOk] at h
    simp [LoadAll, hv, loadAllValidated, Outcome.isPanicked, ← h]
  | ok p =>
    rcases p with ⟨isSlice, specs⟩
    rw [hv] at h
    simp only [exceptOk] at h
    simp only [LoadAll, hv, loadAllValidated, ← h, Bool.not_true]
    cases hI : b.interpolateRes <;> simp [loadAllWithSql, Outcome.isPanicked]

/-- `LoadOne` panics exactly when the destination is not a pointer to a struct. -/
theorem LoadOne_isPanicked (b : SelectBuilder) (dest : GoValue) :
    (LoadOne b dest).isPanicked = !(validLoadOneDest dest) := by
  cases dest with
  | ptrV p =>
    cases p with
    | structV fields =>
      rw [LoadOne, if_pos ⟨rfl, rfl⟩]
      cases hI : b.interpolateRes <;>
        simp [loadOneWithSql, Outcome.isPanicked, validLoadOneDest]
    | intV n => rfl
    | stringV s => rfl
    | ptrV q => rfl
    | sliceV t es => rfl
    | mapV k t es => rfl
  | intV n => rfl
  | stringV s => rfl
  | structV fields => rfl
  | sliceV t es => rfl
  | mapV k t es => rfl

/-- `LoadValue` panics exactly when the destination is not of pointer kind. -/
theorem LoadValue_isPanicked (b : SelectBuilder) (dest : GoValue) :
    (LoadValue b dest).isPanicked = !(kindIsPtr dest) := by
  cases dest with
  | ptrV p =>
    rw [LoadValue, if_pos (show kindOf (GoValue.ptrV p) = Kind.ptrK from rfl)]
    cases hI : b.interpolateRes <;>
      simp [loadValueWithSql, Outcome.isPanicked, kindIsPtr, kindOf]
  | intV n => rfl
  | stringV s => rfl
  | structV fields => rfl
  | sliceV t es => rfl
  | mapV k t es => rfl

/-- Forwarded errors stay forwarded when more events (the deferred timing) are
appended. -/
theorem ErrForwarded_append (e : LoadErr) (evs more : List Event)
    (h : ErrForwarded e evs) : ErrForwarded e (evs ++ more) := by
  cases e with
  | notFound => exact h.elim
  | untagged u => exact h.elim
  | tagged op u sql => exact List.mem_append_left more h
  | taggedOp op u => exact List.mem_append_left more h

/-- Any error returned by the final `rows.Err()` check is forwarded in matching
shape. -/
theorem loadAllIterCheck_err (o : Option String) (n : Nat) (d : GoValue)
    (sql : String) (e : LoadErr) (h : (loadAllIterCheck o n d sql).err = some e) :
    ErrForwarded e (loadAllIterCheck o n d sql).events := by
  cases o with
  | none => simp [loadAllIterCheck] at h
  | some u =>
    simp [loadAllIterCheck] at h
    subst h
    simp [loadAllIterCheck, ErrForwarded]

/-- Any error returned after the slice loop is forwarded in matching shape. -/
theorem loadAllAfterLoop_err (res : Nat × Option (String × String) × List GoValue)
    (rows : Cursor) (d : GoValue) (sql : String) (e : LoadErr)
    (h : (loadAllAfterLoop res rows d sql).err = some e) :
    ErrForwarded e (loadAllAfterLoop res rows d sql).events := by
  obtain ⟨n, oe, elems⟩ := res
  cases oe with
  | some p =>
    obtain ⟨op, u⟩ := p
    simp [loadAllAfterLoop] at h
    subst h
    simp [loadAllAfterLoop, ErrForwarded]
  | none =>
    simp only [loadAllAfterLoop] at h ⊢
    exact loadAllIterCheck_err _ _ _ _ _ h

/-- Any error returned from the field-map stage onwards in `LoadAll` is
forwarded in matching shape. -/
theorem loadAllWithFieldMap_err (r : Except String (List (Option String)))
    (rows : Cursor) (d : GoValue) (isSlice : Bool) (specs : List FieldSpec)
    (sql : String) (e : LoadErr)
    (h : (loadAllWithFieldMap r rows d isSlice specs sql).err = some e) :
    ErrForwarded e (loadAllWithFieldMap r rows d isSlice specs sql).events := by
  cases r with
  | error u =>
    simp [loadAllWithFieldMap] at h
    subst h
    simp [loadAllWithFieldMap, ErrForwarded]
  | ok fieldMap =>
    simp only [loadAllWithFieldMap] at h ⊢
    cases isSlice with
    | true =>
      rw [if_pos rfl] at h ⊢
      exact loadAllAfterLoop_err _ _ _ _ _ h
    | false =>
      rw [if_neg (by simp)] at h ⊢
      exact loadAllIterCheck_err _ _ _ _ _ h

/-- Any error returned from the column stage onwards in `LoadAll` is forwarded
in matching shape. -/
theorem loadAllWithColumns_err (r : Except String (List String))
    (rows : Cursor) (d : GoValue) (isSlice : Bool) (specs : List FieldSpec)
    (sql : String) (e : LoadErr)
    (h : (loadAllWithColumns r rows d isSlice specs sql).err = some e) :
    ErrForwarded e (loadAllWithColumns r rows d isSlice specs sql).events := by
  cases r with
  | error u =>
    simp [loadAllWithColumns] at h
    subst h
    simp [loadAllWithColumns, ErrForwarded]
  | ok columns =>
    simp only [loadAllWithColumns] at h ⊢
    exact loadAllWithFieldMap_err _ _ _ _ _ _ _ h

/-- Any error returned from the query stage onwards in `LoadAll` is forwarded
in matching shape. -/
theorem loadAllWithQuery_err (r : Except String Cursor)
    (d : GoValue) (isSlice : Bool) (specs : List FieldSpec)
    (sql : String) (e : LoadErr)
    (h : (loadAllWithQuery r d isSlice specs sql).err = some e) :
    ErrForwarded e (loadAllWithQuery r d isSlice specs sql).events := by
  cases r with
  | error u =>
    simp [loadAllWithQuery] at h
    subst h
    simp [loadAllWithQuery, ErrForwarded]
  | ok rows =>
    simp only [loadAllWithQuery] at h ⊢
    exact loadAllWithColumns_err _ _ _ _ _ _ _ h

/-- Any error returned by `LoadOne`'s scan stage is forwarded, or is not-found
(which this stage never produces). -/
theorem loadOneAfterScan_err (r : Except String (List (FieldSpec × GoValue)))
    (d : GoValue) (sql : String) (e : LoadErr)
    (h : (loadOneAfterScan r d sql).err = some e) :
    ErrForwarded e (loadOneAfterScan r d sql).events ∨ e = LoadErr.notFound := by
  cases r with
  | error u =>
    simp [loadOneAfterScan] at h
    subst h
    left
    simp [loadOneAfterScan, ErrForwarded]
  | ok newFields => simp [loadOneAfterScan] at h

/-- Any error returned by `LoadOne`'s holder stage onwards is forwarded, or is
not-found. -/
theorem loadOneAfterHolder_err (r : Except String Unit) (row : Row)
    (fm : List (Option String)) (d : GoValue) (sql : String) (e : LoadErr)
    (h : (loadOneAfterHolder r row fm d sql).err = some e) :
    ErrForwarded e (loadOneAfterHolder r row fm d sql).events ∨ e = LoadErr.notFound := by
  cases r with
  | error u =>
    simp [loadOneAfterHolder] at h
    subst h
    left
    simp [loadOneAfterHolder, ErrForwarded]
  | ok u0 =>
    simp only [loadOneAfterHolder] at h ⊢
    exact loadOneAfterScan_err _ _ _ _ h

/-- Any error returned by `LoadOne`'s row stage onwards is forwarded, or is
not-found. -/
theorem loadOneRows_err (l : List Row) (rows : Cursor)
    (fm : List (Option String)) (d : GoValue) (sql : String) (e : LoadErr)
    (h : (loadOneRows l rows fm d sql).err = some e) :
    ErrForwarded e (loadOneRows l rows fm d sql).events ∨ e = LoadErr.notFound := by
  cases l with
  | cons row rest =>
    simp only [loadOneRows] at h ⊢
    exact loadOneAfterHolder_err _ _ _ _ _ _ h
  | nil =>
    simp only [loadOneRows] at h ⊢
    cases hi : rows.iterErr with
    | some u =>
      rw [hi] at h
      simp at h
      subst h
      left
      simp [ErrForwarded]
    | none =>
      rw [hi] at h
      simp at h
      subst h
      right
      rfl

/-- Any error returned by `LoadOne`'s field-map stage onwards is forwarded, or
is not-found. -/
theorem loadOneWithFieldMap_err (r : Except String (List (Option String)))
    (rows : Cursor) (d : GoValue) (sql : String) (e : LoadErr)
    (h : (loadOneWithFieldMap r rows d sql).err = some e) :
    ErrForwarded e (loadOneWithFieldMap r rows d sql).events ∨ e = LoadErr.notFound := by
  cases r with
  | error u =>
    simp [loadOneWithFieldMap] at h
    subst h
    left
    simp [loadOneWithFieldMap, ErrForwarded]
  | ok fieldMap =>
    simp only [loadOneWithFieldMap] at h ⊢
    exact loadOneRows_err _ _ _ _ _ _ h

/-- Any error returned by `LoadOne`'s column stage onwards is forwarded, or is
not-found. -/
theorem loadOneWithColumns_err (r : Except String (List String))
    (rows : Cursor) (d : GoValue) (sql : String) (e : LoadErr)
    (h : (loadOneWithColumns r rows d sql).err = some e) :
    ErrForwarded e (loadOneWithColumns r rows d sql).events ∨ e = LoadErr.notFound := by
  cases r with
  | error u =>
    simp [loadOneWithColumns] at h
    subst h
    left
    simp [loadOneWithColumns, ErrForwarded]
  | ok columns =>
    simp only [loadOneWithColumns] at h ⊢
    exact loadOneWithFieldMap_err _ _ _ _ _ h

/-- Any error returned by `LoadOne`'s query stage onwards is forwarded, or is
not-found. -/
theorem loadOneWithQuery_err (r : Except String Cursor)
    (d : GoValue) (sql : String) (e : LoadErr)
    (h : (loadOneWithQuery r d sql).err = some e) :
    ErrForwarded e (loadOneWithQuery r d sql).events ∨ e = LoadErr.notFound := by
  cases r with
  | error u =>
    simp [loadOneWithQuery] at h
    subst h
    left
    simp [loadOneWithQuery, ErrForwarded]
  | ok rows =>
    simp only [loadOneWithQuery] at h ⊢
    exact loadOneWithColumns_err _ _ _ _ _ h

/-- Any error returned by `LoadValue`'s row stage is forwarded, or is
not-found. -/
theorem loadValueRows_err (l : List Row) (rows : Cursor)
    (d : GoValue) (sql : String) (e : LoadErr)
    (h : (loadValueRows l rows d sql).err = some e) :
    ErrForwarded e (loadValueRows l rows d sql).events ∨ e = LoadErr.notFound := by
  cases l with
  | cons row rest =>
    simp only [loadValueRows] at h ⊢
    cases hs : row.scanErr with
    | some u =>
      rw [hs] at h
      simp at h
      subst h
      left
      simp [ErrForwarded]
    | none =>
      rw [hs] at h
      simp at h
  | nil =>
    simp only [loadValueRows] at h ⊢
    cases hi : rows.iterErr with
    | some u =>
      rw [hi] at h
      simp at h
      subst h
      left
      simp [ErrForwarded]
    | none =>
      rw [hi] at h
      simp at h
      subst h
      right
      rfl

/-- A record type with a required field whose resolved column matches no
returned column makes the non-tolerant field map fail with an unmapped-field
error. -/
theorem calculateFieldMap_error_of_unmapped (specs : List FieldSpec)
    (cols : List String) (f : FieldSpec) (rc : String)
    (hf : f ∈ specs) (hrc : resolvedColumn f = some rc)
    (hno : cols.any (fun c => colMatch rc c) = false) :
    ∃ msg, calculateFieldMap specs cols false = Except.error msg := by
  have hsome : (specs.find? (fun g =>
      match resolvedColumn g with
      | some rc2 => !(cols.any (fun c => colMatch rc2 c))
      | none => false)).isSome := by
    rw [List.find?_isSome]
    refine ⟨f, hf, ?_⟩
    show (match resolvedColumn f with
      | some rc2 => !(cols.any (fun c => colMatch rc2 c))
      | none => false) = true
    rw [hrc]
    simp [hno]
  obtain ⟨g, hg⟩ := Option.isSome_iff_exists.mp hsome
  refine ⟨"field " ++ g.name ++ " has no matching column", ?_⟩
  simp [calculateFieldMap, unmappedField, hg]

/-- When every required field has a matching column, no field is unmapped. -/
theorem unmappedField_eq_none (specs : List FieldSpec) (cols : List String)
    (hall : ∀ f ∈ specs, fieldMapped cols f = true) :
    unmappedField specs cols = none := by
  unfold unmappedField
  rw [Option.map_eq_none', List.find?_eq_none]
  intro f hf
  have hm := hall f hf
  unfold fieldMapped at hm
  cases hr : resolvedColumn f with
  | none =>
    rw [hr] at hm
    exact absurd hm Bool.false_ne_true
  | some rc =>
    rw [hr] at hm
    have hm2 : cols.any (fun c => colMatch rc c) = true := hm
    intro hcon
    have hcon3 : (!(cols.any (fun c => colMatch rc c))) = true := hcon
    rw [hm2] at hcon3
    exact absurd hcon3 (by simp)

/-- When every required field has a matching column, the non-tolerant field
map succeeds and is the per-column lookup. -/
theorem calculateFieldMap_ok_of_mapped (specs : List FieldSpec) (cols : List String)
    (hall : ∀ f ∈ specs, fieldMapped cols f = true) :
    calculateFieldMap specs cols false = Except.ok (cols.map (findFieldFor specs)) := by
  simp [calculateFieldMap, unmappedField_eq_none specs cols hall]

/-- Case-insensitive matching unfolded to equality of lowercased names. -/
theorem colMatch_iff (a b : String) : colMatch a b = true ↔ strLower a = strLower b := by
  simp [colMatch]

/-- When no two fields of the record type resolve to clashing column names, the
per-column lookup at a column matching a field's resolved name answers exactly
that field. -/
theorem findFieldFor_eq (specs : List FieldSpec) (f : FieldSpec) (rc c : String)
    (hdist : specsDistinct specs = true) (hf : f ∈ specs)
    (hrc : resolvedColumn f = some rc) (hm : colMatch rc c = true) :
    findFieldFor specs c = some f.name := by
  induction specs with
  | nil => cases hf
  | cons g rest ih =>
    rw [specsDistinct, Bool.and_eq_true] at hdist
    obtain ⟨hg, hrest⟩ := hdist
    rcases List.mem_cons.mp hf with hfg | hmem
    · subst hfg
      unfold findFieldFor
      rw [List.find?_cons_of_pos]
      · rfl
      · show (match resolvedColumn f with
          | some rc2 => colMatch rc2 c
          | none => false) = true
        rw [hrc]
        exact hm
    · have hclash : specsClash g f = false := by
        have := List.all_eq_true.mp hg f hmem
        simpa using this
      have hpred : (match resolvedColumn g with
          | some rc2 => colMatch rc2 c
          | none => false) = false := by
        cases hgr : resolvedColumn g with
        | none => rfl
        | some bg =>
          cases hbc : colMatch bg c with
          | false => exact hbc
          | true =>
            exfalso
            have h1 : strLower bg = strLower c := (colMatch_iff bg c).mp hbc
            have h2 : strLower rc = strLower c := (colMatch_iff rc c).mp hm
            have h3 : colMatch bg rc = true := (colMatch_iff bg rc).mpr (h1.trans h2.symm)
            have : specsClash g f = true := by
              unfold specsClash
              rw [hgr, hrc]
              exact h3
            rw [hclash] at this
            cases this
      unfold findFieldFor
      rw [List.find?_cons_of_neg]
      · exact ih hrest hmem
      · simp [hpred]

/-- Every mapped field of an unambiguous record type is the target of some
entry of the field map. -/
theorem mem_fieldMap_of_mapped (specs : List FieldSpec) (cols : List String)
    (f : FieldSpec) (hdist : specsDistinct specs = true) (hf : f ∈ specs)
    (hmapped : fieldMapped cols f = true) :
    some f.name ∈ cols.map (findFieldFor specs) := by
  unfold fieldMapped at hmapped
  cases hr : resolvedColumn f with
  | none => rw [hr] at hmapped; cases hmapped
  | some rc =>
    rw [hr] at hmapped
    obtain ⟨c, hc, hcm⟩ := List.any_eq_true.mp hmapped
    exact List.mem_map.mpr ⟨c, hc, findFieldFor_eq specs f rc c hdist hf hr hcm⟩

/-- Any error returned by `LoadValue`'s query stage onwards is forwarded, or is
not-found. -/
theorem loadValueWithQuery_err (r : Except String Cursor)
    (d : GoValue) (sql : String) (e : LoadErr)
    (h : (loadValueWithQuery r d sql).err = some e) :
    ErrForwarded e (loadValueWithQuery r d sql).events ∨ e = LoadErr.notFound := by
  cases r with
  | error u =>
    simp [loadValueWithQuery] at h
    subst h
    left
    simp [loadValueWithQuery, ErrForwarded]
  | ok rows =>
    simp only [loadValueWithQuery] at h ⊢
    exact loadValueRows_err _ _ _ _ _ h

end Lemmas

section Claims

/-- C1: for every sequence (slice) destination, `LoadAll` returns a `rowCount`
equal to the number of rows the cursor yielded, the destination's length grows
by exactly that amount with the scanned records appended in row order, and —
because the prior elements `elems` are arbitrary and preserved as a prefix — a
second `LoadAll` into the same non-empty destination appends to the existing
contents without clearing them. -/
theorem C1_loadAll_slice_accumulates (b : SelectBuilder) (specs : List FieldSpec)
    (elems : List GoValue) (sql : String) (cur : Cursor) (cols : List String)
    (fm : List (Option String))
    (hI : b.interpolateRes = Except.ok sql) (hQ : b.queryRes = Except.ok cur)
    (hC : cur.columnsRes = Except.ok cols)
    (hFM : calculateFieldMap specs cols false = Except.ok fm)
    (hscan : ∀ r ∈ cur.rows, r.scanErr = none)
    (hiter : cur.iterErr = none) :
    LoadAll b (.ptrV (.sliceV (.ptrT (.structT specs)) elems)) =
      .ok ⟨cur.rows.length, none,
           .ptrV (.sliceV (.ptrT (.structT specs)) (elems ++ cur.rows.map (recOf specs fm))),
           [.timing "dbr.select" sql]⟩ ∧
    (elems ++ cur.rows.map (recOf specs fm)).length = elems.length + cur.rows.length :=
  ⟨loadAll_slice_success b specs elems sql cur cols fm hI hQ hC hFM hscan hiter,
   by simp⟩

/-- C1 witness: a slice destination already holding one record receives the one
row of `wCursorOK` appended after the existing record, with `rowCount = 1`. -/
theorem C1_witness :
    LoadAll wBuilderOK wSliceDest99 =
      .ok ⟨wCursorOK.rows.length, none,
           .ptrV (.sliceV (.ptrT (.structT [specId]))
             ([.ptrV (.structV [(specId, .intV 99)])] ++
               wCursorOK.rows.map (recOf [specId] [some "Id"]))),
           [.timing "dbr.select" "q"]⟩ ∧
    ([GoValue.ptrV (.structV [(specId, .intV 99)])] ++
        wCursorOK.rows.map (recOf [specId] [some "Id"])).length =
      [GoValue.ptrV (.structV [(specId, .intV 99)])].length + wCursorOK.rows.length :=
  C1_loadAll_slice_accumulates wBuilderOK [specId]
    [.ptrV (.structV [(specId, .intV 99)])] "q" wCursorOK ["id"] [some "Id"]
    rfl rfl rfl rfl (by decide) rfl

/-- C2: the claim says a keyed (map) destination with N rows sharing one key
value yields `rowCount = N` and one entry for that key populated from the last
row. The code's map branch is empty: evaluated at a map destination with two
rows sharing key 7, `LoadAll` reads no rows, returns `(0, nil)` and leaves the
map untouched — contradicting the claim, the source's own documentation of the
map case, and the spec's stated intent. -/
theorem C2_map_branch_unimplemented :
    LoadAll cexMapBuilder cexMapDest =
      .ok ⟨0, none, cexMapDest, [.timing "dbr.select" "q"]⟩ := rfl

/-- C3: on a cursor yielding zero rows with no iteration error, `LoadAll`
returns `(0, nil)` with the destination untouched, while `LoadOne` and
`LoadValue` return the distinguished `ErrNotFound` value, not a generic
error. -/
theorem C3_zero_rows_outcomes (b : SelectBuilder)
    (fields : List (FieldSpec × GoValue)) (elems : List GoValue) (v : GoValue)
    (sql : String) (cur : Cursor) (cols : List String) (fm : List (Option String))
    (hI : b.interpolateRes = Except.ok sql) (hQ : b.queryRes = Except.ok cur)
    (hC : cur.columnsRes = Except.ok cols)
    (hFM : calculateFieldMap (fields.map Prod.fst) cols false = Except.ok fm)
    (hrows : cur.rows = []) (hiter : cur.iterErr = none) :
    LoadAll b (.ptrV (.sliceV (.ptrT (.structT (fields.map Prod.fst))) elems)) =
      .ok ⟨0, none, .ptrV (.sliceV (.ptrT (.structT (fields.map Prod.fst))) elems),
           [.timing "dbr.select" sql]⟩ ∧
    LoadOne b (.ptrV (.structV fields)) =
      .ok ⟨some .notFound, .ptrV (.structV fields), [.timing "dbr.select" sql]⟩ ∧
    LoadValue b (.ptrV v) =
      .ok ⟨some .notFound, .ptrV v, [.timing "dbr.select" sql]⟩ := by
  refine ⟨?_, ?_, ?_⟩
  · have h := loadAll_slice_success b (fields.map Prod.fst) elems sql cur cols fm
      hI hQ hC hFM (by rw [hrows]; intro r hr; cases hr) hiter
    rw [hrows] at h
    simpa using h
  · exact loadOne_notFound b fields sql cur cols fm hI hQ hC hFM hrows hiter
  · rw [LoadValue, if_pos (show kindOf (GoValue.ptrV v) = Kind.ptrK from rfl)]
    simp only [hI, loadValueWithSql, hQ, loadValueWithQuery, hrows, loadValueRows,
      hiter, List.nil_append]

/-- C3 witness: the empty cursor gives `(0, nil)` for `LoadAll` and
`ErrNotFound` for `LoadOne` and `LoadValue`. -/
theorem C3_witness :
    LoadAll wBuilderEmpty (.ptrV (.sliceV (.ptrT (.structT [specId])) [])) =
      .ok ⟨0, none, .ptrV (.sliceV (.ptrT (.structT [specId])) []),
           [.timing "dbr.select" "q"]⟩ ∧
    LoadOne wBuilderEmpty (.ptrV (.structV [(specId, .intV 0)])) =
      .ok ⟨some .notFound, .ptrV (.structV [(specId, .intV 0)]),
           [.timing "dbr.select" "q"]⟩ ∧
    LoadValue wBuilderEmpty (.ptrV (.intV 0)) =
      .ok ⟨some .notFound, .ptrV (.intV 0), [.timing "dbr.select" "q"]⟩ :=
  C3_zero_rows_outcomes wBuilderEmpty [(specId, .intV 0)] [] (.intV 0) "q"
    wCursorEmpty ["id"] [some "Id"] rfl rfl rfl rfl rfl rfl

/-- C4: a record type with a required (non-excluded) field whose resolved
column name matches no returned column makes both `LoadAll` and `LoadOne` fail
with the tagged unmapped-field (`calculateFieldMap`) error before any row is
scanned — the destinations are untouched whatever rows the cursor holds — and
`LoadAll`'s returned row count is 0. -/
theorem C4_unmapped_field_error (b : SelectBuilder)
    (fields : List (FieldSpec × GoValue)) (elems : List GoValue)
    (sql : String) (cur : Cursor) (cols : List String) (f : FieldSpec) (rc : String)
    (hI : b.interpolateRes = Except.ok sql) (hQ : b.queryRes = Except.ok cur)
    (hC : cur.columnsRes = Except.ok cols)
    (hf : f ∈ fields.map Prod.fst) (hrc : resolvedColumn f = some rc)
    (hno : cols.any (fun c => colMatch rc c) = false) :
    ∃ msg, calculateFieldMap (fields.map Prod.fst) cols false = Except.error msg ∧
      LoadAll b (.ptrV (.sliceV (.ptrT (.structT (fields.map Prod.fst))) elems)) =
        .ok ⟨0, some (.tagged "dbr.select.load_all.calculateFieldMap" msg sql),
             .ptrV (.sliceV (.ptrT (.structT (fields.map Prod.fst))) elems),
             [.errKv "dbr.select.load_all.calculateFieldMap" msg sql,
              .timing "dbr.select" sql]⟩ ∧
      LoadOne b (.ptrV (.structV fields)) =
        .ok ⟨some (.tagged "dbr.select.load_one.calculateFieldMap" msg sql),
             .ptrV (.structV fields),
             [.errKv "dbr.select.load_one.calculateFieldMap" msg sql,
              .timing "dbr.select" sql]⟩ := by
  obtain ⟨msg, hmsg⟩ :=
    calculateFieldMap_error_of_unmapped (fields.map Prod.fst) cols f rc hf hrc hno
  refine ⟨msg, hmsg, ?_, ?_⟩
  · unfold LoadAll
    rw [loadAllValidate_slice]
    simp only [loadAllValidated, hI, loadAllWithSql, hQ, loadAllWithQuery, hC,
      loadAllWithColumns, hmsg, loadAllWithFieldMap, List.singleton_append]
  · rw [LoadOne, if_pos ⟨rfl, rfl⟩]
    simp only [hI, loadOneWithSql, hQ, loadOneWithQuery, hC, loadOneWithColumns,
      destStructFields, hmsg, loadOneWithFieldMap, List.singleton_append]

/-- C4 witness: field `Id` resolves to column `id`, absent from the returned
columns `[nope]`; both loaders fail with the tagged field-map error, the row
count is 0 and the destinations are untouched even though the cursor holds a
row. -/
theorem C4_witness :
    ∃ msg, calculateFieldMap ([((specId : FieldSpec), GoValue.intV 0)].map Prod.fst)
        ["nope"] false = Except.error msg ∧
      LoadAll wBuilderNoCol
          (.ptrV (.sliceV (.ptrT (.structT ([((specId : FieldSpec), GoValue.intV 0)].map Prod.fst))) [])) =
        .ok ⟨0, some (.tagged "dbr.select.load_all.calculateFieldMap" msg "q"),
             .ptrV (.sliceV (.ptrT (.structT ([((specId : FieldSpec), GoValue.intV 0)].map Prod.fst))) []),
             [.errKv "dbr.select.load_all.calculateFieldMap" msg "q",
              .timing "dbr.select" "q"]⟩ ∧
      LoadOne wBuilderNoCol (.ptrV (.structV [((specId : FieldSpec), GoValue.intV 0)])) =
        .ok ⟨some (.tagged "dbr.select.load_one.calculateFieldMap" msg "q"),
             .ptrV (.structV [((specId : FieldSpec), GoValue.intV 0)]),
             [.errKv "dbr.select.load_one.calculateFieldMap" msg "q",
              .timing "dbr.select" "q"]⟩ :=
  C4_unmapped_field_error wBuilderNoCol [(specId, .intV 0)] [] "q" wCursorNoCol
    ["nope"] specId "id" rfl rfl rfl (by decide) rfl (by decide)

/-- C5 counterexample: a pointer to a map (with element type pointer-to-struct)
is by kind a pointer — by the claim's wording it is neither a map nor a pointer
to a slice, so the claim requires a panic — yet `LoadAll` accepts it and
returns normally. -/
theorem C5_counterexample :
    kindOf cexPtrMapDest = Kind.ptrK ∧
    (LoadAll cexPtrMapBuilder cexPtrMapDest).isPanicked = false := ⟨rfl, rfl⟩

/-- C5 amended: `LoadAll` panics exactly when the destination is none of a map,
a pointer to a map, or a pointer to a slice, in each case with element type
pointer-to-struct (the claim omitted the pointer-to-map shape, which the code
accepts); `LoadOne` panics exactly when the destination is not a pointer to a
struct. A panic happens during validation, before any query executes, and is
never surfaced as a returned error value. -/
theorem C5_amended_panic_iff_invalid_dest (b : SelectBuilder) (dest : GoValue) :
    (LoadAll b dest).isPanicked = !(validLoadAllDest dest) ∧
    (LoadOne b dest).isPanicked = !(validLoadOneDest dest) :=
  ⟨LoadAll_isPanicked b dest, LoadOne_isPanicked b dest⟩

/-- C6: when every exported field of the record type maps to a returned column
(and no two fields clash on a column name), `LoadOne` populates the caller's
own struct instance from the first row — every field is the target of some
field-map entry — returns nil, and never reads any subsequent row: the result
is identical when the cursor holds only the first row. -/
theorem C6_loadOne_first_row_all_fields (b : SelectBuilder)
    (fields : List (FieldSpec × GoValue)) (sql : String) (cur : Cursor)
    (cols : List String) (row : Row) (rest : List Row)
    (hI : b.interpolateRes = Except.ok sql) (hQ : b.queryRes = Except.ok cur)
    (hC : cur.columnsRes = Except.ok cols)
    (hrows : cur.rows = row :: rest) (hscan : row.scanErr = none)
    (hmapped : ∀ f ∈ fields.map Prod.fst, fieldMapped cols f = true)
    (hdist : specsDistinct (fields.map Prod.fst) = true) :
    (∀ f ∈ fields.map Prod.fst,
        some f.name ∈ cols.map (findFieldFor (fields.map Prod.fst))) ∧
    LoadOne b (.ptrV (.structV fields)) =
      .ok ⟨none,
           .ptrV (.structV (scanInto fields
             (cols.map (findFieldFor (fields.map Prod.fst))) row)),
           [.timing "dbr.select" sql]⟩ ∧
    LoadOne ⟨Except.ok sql, Except.ok ⟨Except.ok cols, [row], cur.iterErr⟩⟩
        (.ptrV (.structV fields)) =
      LoadOne b (.ptrV (.structV fields)) := by
  have hFM := calculateFieldMap_ok_of_mapped (fields.map Prod.fst) cols hmapped
  have hnames : fieldNames fields = (fields.map Prod.fst).map FieldSpec.name := by
    simp [fieldNames, List.map_map]
  have hhold := holderFor_findFieldFor fields (fields.map Prod.fst) cols hnames
  have h1 := loadOne_firstRow b fields sql cur cols
    (cols.map (findFieldFor (fields.map Prod.fst))) row rest hI hQ hC hFM hrows
    hscan hhold
  have h2 := loadOne_firstRow ⟨Except.ok sql, Except.ok ⟨Except.ok cols, [row], cur.iterErr⟩⟩
    fields sql ⟨Except.ok cols, [row], cur.iterErr⟩ cols
    (cols.map (findFieldFor (fields.map Prod.fst))) row [] rfl rfl rfl hFM rfl
    hscan hhold
  refine ⟨?_, h1, ?_⟩
  · intro f hf
    exact mem_fieldMap_of_mapped (fields.map Prod.fst) cols f hdist hf (hmapped f hf)
  · rw [h1, h2]

/-- C6 witness: record `{Id}` with column `[id]` and first row `(5)`: the field
is targeted, the caller's record is populated from the first row and the result
ignores the cursor's tail. -/
theorem C6_witness :
    (∀ f ∈ [((specId : FieldSpec), GoValue.intV 0)].map Prod.fst,
        some f.name ∈ ["id"].map (findFieldFor ([((specId : FieldSpec), GoValue.intV 0)].map Prod.fst))) ∧
    LoadOne wBuilderOK (.ptrV (.structV [(specId, .intV 0)])) =
      .ok ⟨none,
           .ptrV (.structV (scanInto [(specId, .intV 0)]
             (["id"].map (findFieldFor ([((specId : FieldSpec), GoValue.intV 0)].map Prod.fst)))
             ⟨[.intV 5], none⟩)),
           [.timing "dbr.select" "q"]⟩ ∧
    LoadOne ⟨Except.ok "q", Except.ok ⟨Except.ok ["id"], [⟨[.intV 5], none⟩], wCursorOK.iterErr⟩⟩
        (.ptrV (.structV [(specId, .intV 0)])) =
      LoadOne wBuilderOK (.ptrV (.structV [(specId, .intV 0)])) :=
  C6_loadOne_first_row_all_fields wBuilderOK [(specId, .intV 0)] "q" wCursorOK
    ["id"] ⟨[.intV 5], none⟩ [] rfl rfl rfl rfl rfl (by decide) (by decide)

/-- C7: whenever a per-row step of `LoadAll` fails (the scan of some row, after
a prefix of clean rows), the call immediately returns the tagged error together
with the count of rows successfully processed before the failure; and a
cursor-level iteration error detected after the loop is likewise returned
together with the full count accumulated so far. -/
theorem C7_partial_count_on_failure :
    (∀ (b : SelectBuilder) (specs : List FieldSpec) (elems : List GoValue)
       (sql : String) (cur : Cursor) (cols : List String) (fm : List (Option String))
       (pre : List Row) (bad : Row) (rest : List Row) (e : String),
       b.interpolateRes = Except.ok sql → b.queryRes = Except.ok cur →
       cur.columnsRes = Except.ok cols →
       calculateFieldMap specs cols false = Except.ok fm →
       cur.rows = pre ++ bad :: rest → (∀ r ∈ pre, r.scanErr = none) →
       bad.scanErr = some e →
       LoadAll b (.ptrV (.sliceV (.ptrT (.structT specs)) elems)) =
         .ok ⟨pre.length, some (.tagged "dbr.select.load_all.scan" e sql),
              .ptrV (.sliceV (.ptrT (.structT specs)) elems),
              [.errKv "dbr.select.load_all.scan" e sql, .timing "dbr.select" sql]⟩) ∧
    (∀ (b : SelectBuilder) (specs : List FieldSpec) (elems : List GoValue)
       (sql : String) (cur : Cursor) (cols : List String) (fm : List (Option String))
       (e : String),
       b.interpolateRes = Except.ok sql → b.queryRes = Except.ok cur →
       cur.columnsRes = Except.ok cols →
       calculateFieldMap specs cols false = Except.ok fm →
       (∀ r ∈ cur.rows, r.scanErr = none) → cur.iterErr = some e →
       LoadAll b (.ptrV (.sliceV (.ptrT (.structT specs)) elems)) =
         .ok ⟨cur.rows.length, some (.tagged "dbr.select.load_all.rows_err" e sql),
              .ptrV (.sliceV (.ptrT (.structT specs))
                (elems ++ cur.rows.map (recOf specs fm))),
              [.errKv "dbr.select.load_all.rows_err" e sql, .timing "dbr.select" sql]⟩) :=
  ⟨fun b specs elems sql cur cols fm pre bad rest e hI hQ hC hFM hrows hpre hbad =>
     loadAll_slice_scanFail b specs elems sql cur cols fm pre bad rest e
       hI hQ hC hFM hrows hpre hbad,
   fun b specs elems sql cur cols fm e hI hQ hC hFM hscan hiter =>
     loadAll_slice_iterFail b specs elems sql cur cols fm e hI hQ hC hFM hscan hiter⟩

/-- C7 witness: with rows `(5)` then a failing scan, `LoadAll` returns count 1
and the tagged scan error; with one clean row and an iteration error, it
returns count 1 and the tagged `rows_err` error. -/
theorem C7_witness :
    LoadAll wBuilderScanFail (.ptrV (.sliceV (.ptrT (.structT [specId])) [])) =
      .ok ⟨[Row.mk [GoValue.intV 5] none].length,
           some (.tagged "dbr.select.load_all.scan" "bad" "q"),
           .ptrV (.sliceV (.ptrT (.structT [specId])) []),
           [.errKv "dbr.select.load_all.scan" "bad" "q", .timing "dbr.select" "q"]⟩ ∧
    LoadAll wBuilderIterFail (.ptrV (.sliceV (.ptrT (.structT [specId])) [])) =
      .ok ⟨wCursorIterFail.rows.length,
           some (.tagged "dbr.select.load_all.rows_err" "iter" "q"),
           .ptrV (.sliceV (.ptrT (.structT [specId]))
             ([] ++ wCursorIterFail.rows.map (recOf [specId] [some "Id"]))),
           [.errKv "dbr.select.load_all.rows_err" "iter" "q", .timing "dbr.select" "q"]⟩ :=
  ⟨C7_partial_count_on_failure.1 wBuilderScanFail [specId] [] "q" wCursorScanFail
     ["id"] [some "Id"] [⟨[.intV 5], none⟩] ⟨[.intV 6], some "bad"⟩ [] "bad"
     rfl rfl rfl rfl rfl (by decide) rfl,
   C7_partial_count_on_failure.2 wBuilderIterFail [specId] [] "q" wCursorIterFail
     ["id"] [some "Id"] "iter" rfl rfl rfl rfl (by decide) rfl⟩

/-- C8 counterexample: when interpolation fails, `LoadOne` and `LoadValue`
return the underlying error untagged — no operation identifier, no query text —
and forward nothing to the event sink; `LoadAll` tags its interpolation error
with the operation identifier only, without the executed query text. This
refutes the claim that no error-returning path returns the underlying error
untagged. -/
theorem C8_counterexample :
    LoadOne cexInterpBuilder cexOneDest =
      .ok ⟨some (.untagged "boom"), cexOneDest, []⟩ ∧
    LoadValue cexInterpBuilder cexOneDest =
      .ok ⟨some (.untagged "boom"), cexOneDest, []⟩ ∧
    LoadAll cexInterpBuilder cexSliceDest =
      .ok ⟨0, some (.taggedOp "dbr.select.load_all.interpolate" "boom"), cexSliceDest,
           [.errEvt "dbr.select.load_all.interpolate" "boom"]⟩ := ⟨rfl, rfl, rfl⟩

/-- C8 amended: every runtime error returned by `LoadAll` is forwarded to the
event sink in matching tagged shape — with operation identifier and query text,
except the interpolation failure, which carries the operation identifier only;
every runtime error returned by `LoadOne` or `LoadValue` is likewise tagged and
forwarded, except the distinguished not-found value and the interpolation
failure, which is returned untagged with nothing forwarded. -/
theorem C8_amended_error_tagging :
    (∀ (b : SelectBuilder) (dest : GoValue) (out : LoadAllOut) (e : LoadErr),
       LoadAll b dest = Outcome.ok out → out.err = some e →
       ErrForwarded e out.events) ∧
    (∀ (b : SelectBuilder) (dest : GoValue) (out : LoadOneOut) (e : LoadErr),
       LoadOne b dest = Outcome.ok out → out.err = some e →
       ErrForwarded e out.events ∨ e = LoadErr.notFound ∨
       ∃ u, e = LoadErr.untagged u ∧ b.interpolateRes = Except.error u ∧
         out.events = []) ∧
    (∀ (b : SelectBuilder) (dest : GoValue) (out : LoadOneOut) (e : LoadErr),
       LoadValue b dest = Outcome.ok out → out.err = some e →
       ErrForwarded e out.events ∨ e = LoadErr.notFound ∨
       ∃ u, e = LoadErr.untagged u ∧ b.interpolateRes = Except.error u ∧
         out.events = []) := by
  refine ⟨?_, ?_, ?_⟩
  · intro b dest out e hload herr
    unfold LoadAll at hload
    cases hv : loadAllValidate dest with
    | error m =>
      rw [hv] at hload
      simp [loadAllValidated] at hload
    | ok p =>
      rcases p with ⟨isSlice, specs⟩
      rw [hv] at hload
      simp only [loadAllValidated] at hload
      cases hI : b.interpolateRes with
      | error u =>
        rw [hI] at hload
        simp only [loadAllWithSql] at hload
        injection hload with h
        subst h
        have he : LoadErr.taggedOp "dbr.select.load_all.interpolate" u = e := by
          simpa using herr
        subst he
        simp [ErrForwarded]
      | ok sql =>
        rw [hI] at hload
        simp only [loadAllWithSql] at hload
        injection hload with h
        subst h
        have hq : (loadAllWithQuery b.queryRes dest isSlice specs sql).err = some e :=
          herr
        exact ErrForwarded_append e _ _ (loadAllWithQuery_err _ _ _ _ _ _ hq)
  · intro b dest out e hload herr
    unfold LoadOne at hload
    split at hload
    · cases hI : b.interpolateRes with
      | error u =>
        rw [hI] at hload
        simp only [loadOneWithSql] at hload
        injection hload with h
        subst h
        have he : LoadErr.untagged u = e := by simpa using herr
        exact Or.inr (Or.inr ⟨u, he.symm, rfl, rfl⟩)
      | ok sql =>
        rw [hI] at hload
        simp only [loadOneWithSql] at hload
        injection hload with h
        subst h
        have hq : (loadOneWithQuery b.queryRes dest sql).err = some e := herr
        rcases loadOneWithQuery_err _ _ _ _ hq with hfw | hnf
        · exact Or.inl (ErrForwarded_append e _ _ hfw)
        · exact Or.inr (Or.inl hnf)
    · exact absurd hload (by simp)
  · intro b dest out e hload herr
    unfold LoadValue at hload
    split at hload
    · cases hI : b.interpolateRes with
      | error u =>
        rw [hI] at hload
        simp only [loadValueWithSql] at hload
        injection hload with h
        subst h
        have he : LoadErr.untagged u = e := by simpa using herr
        exact Or.inr (Or.inr ⟨u, he.symm, rfl, rfl⟩)
      | ok sql =>
        rw [hI] at hload
        simp only [loadValueWithSql] at hload
        injection hload with h
        subst h
        have hq : (loadValueWithQuery b.queryRes dest sql).err = some e := herr
        rcases loadValueWithQuery_err _ _ _ _ hq with hfw | hnf
        · exact Or.inl (ErrForwarded_append e _ _ hfw)
        · exact Or.inr (Or.inl hnf)
    · exact absurd hload (by simp)

/-- C8 witness: a failing query in `LoadAll` is returned tagged and forwarded;
failing interpolation in `LoadOne` and `LoadValue` lands in the untagged,
unforwarded branch. -/
theorem C8_witness :
    ErrForwarded (LoadErr.tagged "dbr.select.load_all.query" "boom" "q")
      (LoadAllOut.mk 0 (some (.tagged "dbr.select.load_all.query" "boom" "q"))
        cexSliceDest
        [.errKv "dbr.select.load_all.query" "boom" "q", .timing "dbr.select" "q"]).events ∧
    (ErrForwarded (LoadErr.untagged "boom")
        (LoadOneOut.mk (some (.untagged "boom")) cexOneDest []).events ∨
      LoadErr.untagged "boom" = LoadErr.notFound ∨
      ∃ u, LoadErr.untagged "boom" = LoadErr.untagged u ∧
        cexInterpBuilder.interpolateRes = Except.error u ∧
        (LoadOneOut.mk (some (.untagged "boom")) cexOneDest []).events = []) ∧
    (ErrForwarded (LoadErr.untagged "boom")
        (LoadOneOut.mk (some (.untagged "boom")) cexOneDest []).events ∨
      LoadErr.untagged "boom" = LoadErr.notFound ∨
      ∃ u, LoadErr.untagged "boom" = LoadErr.untagged u ∧
        cexInterpBuilder.interpolateRes = Except.error u ∧
        (LoadOneOut.mk (some (.untagged "boom")) cexOneDest []).events = []) :=
  ⟨C8_amended_error_tagging.1 ⟨Except.ok "q", Except.error "boom"⟩ cexSliceDest
     (LoadAllOut.mk 0 (some (.tagged "dbr.select.load_all.query" "boom" "q"))
       cexSliceDest
       [.errKv "dbr.select.load_all.query" "boom" "q", .timing "dbr.select" "q"])
     (.tagged "dbr.select.load_all.query" "boom" "q") rfl rfl,
   C8_amended_error_tagging.2.1 cexInterpBuilder cexOneDest
     (LoadOneOut.mk (some (.untagged "boom")) cexOneDest [])
     (.untagged "boom") rfl rfl,
   C8_amended_error_tagging.2.2 cexInterpBuilder cexOneDest
     (LoadOneOut.mk (some (.untagged "boom")) cexOneDest [])
     (.untagged "boom") rfl rfl⟩

/-- C9: when a per-row step of `LoadAll` fails mid-iteration, the caller's
slice destination is left exactly as it was — the records appended before the
failure live only in the local accumulator and are committed in a single
assignment only after the whole loop completes — even though the returned
rowCount may be nonzero. -/
theorem C9_slice_unchanged_on_row_failure (b : SelectBuilder)
    (specs : List FieldSpec) (elems : List GoValue) (sql : String) (cur : Cursor)
    (cols : List String) (fm : List (Option String)) (pre : List Row) (bad : Row)
    (rest : List Row) (e : String)
    (hI : b.interpolateRes = Except.ok sql) (hQ : b.queryRes = Except.ok cur)
    (hC : cur.columnsRes = Except.ok cols)
    (hFM : calculateFieldMap specs cols false = Except.ok fm)
    (hrows : cur.rows = pre ++ bad :: rest)
    (hpre : ∀ r ∈ pre, r.scanErr = none)
    (hbad : bad.scanErr = some e) :
    ∀ out, LoadAll b (.ptrV (.sliceV (.ptrT (.structT specs)) elems)) = Outcome.ok out →
      out.dest = .ptrV (.sliceV (.ptrT (.structT specs)) elems) ∧
      out.rowCount = pre.length := by
  intro out hout
  rw [loadAll_slice_scanFail b specs elems sql cur cols fm pre bad rest e
    hI hQ hC hFM hrows hpre hbad] at hout
  injection hout with h
  subst h
  exact ⟨rfl, rfl⟩

/-- C9 witness: a slice destination holding one record is unchanged by a
`LoadAll` whose second row fails to scan, while the returned rowCount is the
nonzero 1. -/
theorem C9_witness :
    (LoadAllOut.mk 1 (some (.tagged "dbr.select.load_all.scan" "bad" "q"))
        wSliceDest99
        [.errKv "dbr.select.load_all.scan" "bad" "q", .timing "dbr.select" "q"]).dest =
      .ptrV (.sliceV (.ptrT (.structT [specId])) [.ptrV (.structV [(specId, .intV 99)])]) ∧
    (LoadAllOut.mk 1 (some (.tagged "dbr.select.load_all.scan" "bad" "q"))
        wSliceDest99
        [.errKv "dbr.select.load_all.scan" "bad" "q", .timing "dbr.select" "q"]).rowCount =
      [Row.mk [GoValue.intV 5] none].length :=
  C9_slice_unchanged_on_row_failure wBuilderScanFail [specId]
    [.ptrV (.structV [(specId, .intV 99)])] "q" wCursorScanFail ["id"] [some "Id"]
    [⟨[.intV 5], none⟩] ⟨[.intV 6], some "bad"⟩ [] "bad"
    rfl rfl rfl rfl rfl (by decide) rfl
    (LoadAllOut.mk 1 (some (.tagged "dbr.select.load_all.scan" "bad" "q"))
      wSliceDest99
      [.errKv "dbr.select.load_all.scan" "bad" "q", .timing "dbr.select" "q"])
    rfl

/-- C10: `LoadValue` panics if and only if its destination is not of pointer
kind; in particular a pointer to any pointed-to type — including a pointer to a
struct — passes validation and is handed directly to the row scan, with no
scalar-compatibility or non-struct check: the first column's value simply lands
behind the pointer. -/
theorem C10_loadValue_pointer_only_check (b : SelectBuilder) (dest : GoValue) :
    (LoadValue b dest).isPanicked = !(kindIsPtr dest) ∧
    (∀ (sql : String) (colsRes : Except String (List String)) (vals : List GoValue)
       (rest : List Row) (iterE : Option String) (fields : List (FieldSpec × GoValue)),
       LoadValue ⟨Except.ok sql, Except.ok ⟨colsRes, ⟨vals, none⟩ :: rest, iterE⟩⟩
           (.ptrV (.structV fields)) =
         .ok ⟨none, .ptrV (vals.headD (GoValue.intV 0)), [.timing "dbr.select" sql]⟩) :=
  ⟨LoadValue_isPanicked b dest,
   fun _ _ _ _ _ _ => rfl⟩

end Claims

end Dbr
